import Mathlib

/-!
Verification of the Snake game engine in `snake.py`.

The game state and its operations are embedded shallowly: every method of
`JuegoSnake` (and the `aplicar_efecto` methods of the four food classes)
becomes a pure Lean function over a `JuegoSnake` record.  Turtle-graphics
calls (goto, hideturtle, screen updates) carry no logical state beyond the
positions already recorded here, so they are dropped; the random draws of
`random.randint` / `random.choice` are passed in explicitly as candidate
streams, and the unbounded rejection-sampling loops become structurally
recursive functions over those streams returning `Option`.
-/

/-! ## Configuration constants (snake.py lines 8-12) -/

def ANCHO_PANTALLA : Int := 600
def ALTO_PANTALLA : Int := 600
def TAMANO_CELDA : Int := 20
def VELOCIDAD_BASE : Int := 150
def PUNTOS_POR_NIVEL : Nat := 50

/-! ## Data model -/

/-- A logical grid position; turtle coordinates are integer-valued
throughout the game (all entities move in multiples of `TAMANO_CELDA`
starting from integer coordinates). -/
structure Pos where
  x : Int
  y : Int
deriving DecidableEq, Repr

/-- The four direction strings used by `snake.py`. -/
inductive Direccion where
  | arriba
  | abajo
  | izquierda
  | derecha
deriving DecidableEq, Repr

/-- `TipoComida` (snake.py lines 15-19). -/
inductive TipoComida where
  | venenosa
  | fit
  | alto_grasas
  | real
deriving DecidableEq, Repr

/-- The `"tipo"` tag of `efecto_temporal` dictionaries: `"lento"` / `"rapido"`. -/
inductive TipoEfecto where
  | lento
  | rapido
deriving DecidableEq, Repr

/-- The `efecto_temporal` dictionary: a kind tag and a remaining-ticks counter. -/
structure EfectoTemporal where
  tipo : TipoEfecto
  duracion : Int
deriving DecidableEq, Repr

/-- A food item: its variant and its grid position.  The turtle handle of
the Python object carries no further logical state. -/
structure Comida where
  tipo : TipoComida
  pos : Pos
deriving DecidableEq, Repr

/-- The mutable state of a `JuegoSnake` object.  `comida` is `none` only
transiently (between hiding a consumed food and spawning its
replacement). -/
structure JuegoSnake where
  serpiente : List Pos
  obstaculos : List Pos
  comida : Option Comida
  direccion : Direccion
  puntaje : Nat
  nivel : Nat
  juegos_jugados : Nat
  velocidad_actual : Int
  efecto_temporal : Option EfectoTemporal
  mensaje_actual : String
  color_mensaje : String
  tiempo_mensaje : Nat
deriving DecidableEq, Repr

/-! ## Geometry helpers -/

/-- `turtle.distance(p, q) < r` for integer coordinates, compared on
squares so the test stays exact. -/
def distancia_menor (p q : Pos) (r : Int) : Bool :=
  (p.x - q.x) * (p.x - q.x) + (p.y - q.y) * (p.y - q.y) < r * r

/-- Python `round(x / c)` for an integer `x` and positive integer `c`:
nearest integer, ties to even (CPython float rounding is exact at the
magnitudes used by the game). -/
def redondear (x c : Int) : Int :=
  let q := x.fdiv c
  let r := x - c * q
  if 2 * r < c then q
  else if c < 2 * r then q + 1
  else if q % 2 = 0 then q else q + 1

/-- `round(x / TAMAÑO_CELDA) * TAMAÑO_CELDA`: snap a raw random
coordinate to the grid (snake.py lines 156-157 and 358-359). -/
def alinear (x : Int) : Int :=
  redondear x TAMANO_CELDA * TAMANO_CELDA

/-! ## Messages -/

/-- `mostrar_mensaje` (lines 426-430): record the message, its colour and
a 60-frame display budget. -/
def mostrar_mensaje (mensaje color : String) (j : JuegoSnake) : JuegoSnake :=
  { j with mensaje_actual := mensaje, color_mensaje := color, tiempo_mensaje := 60 }

/-! ## Direction changes and movement -/

/-- The `direcciones_opuestas` dictionary (lines 281-284). -/
def direcciones_opuestas : Direccion → Direccion
  | .arriba => .abajo
  | .abajo => .arriba
  | .izquierda => .derecha
  | .derecha => .izquierda

/-- `cambiar_direccion` (lines 278-288): accept the new direction unless
it is the exact opposite of the currently stored one. -/
def cambiar_direccion (nueva_direccion : Direccion) (j : JuegoSnake) : JuegoSnake :=
  if nueva_direccion ≠ direcciones_opuestas j.direccion then
    { j with direccion := nueva_direccion }
  else j

/-- The head's next position: one `TAMAÑO_CELDA` step in the given
direction (lines 296-303). -/
def siguiente_cabeza (d : Direccion) (p : Pos) : Pos :=
  match d with
  | .arriba => ⟨p.x, p.y + TAMANO_CELDA⟩
  | .abajo => ⟨p.x, p.y - TAMANO_CELDA⟩
  | .izquierda => ⟨p.x - TAMANO_CELDA, p.y⟩
  | .derecha => ⟨p.x + TAMANO_CELDA, p.y⟩

/-- `mover_serpiente` (lines 290-312).  The Python loop walks the body
from the tail towards the head, moving each segment to the position its
predecessor still holds (predecessors are only overwritten later in the
loop), and finally moves the head; the resulting list is the new head
consed onto the old list with its last element dropped. -/
def mover_serpiente (j : JuegoSnake) : JuegoSnake :=
  match j.serpiente with
  | [] => j
  | cabeza :: cuerpo =>
    { j with serpiente :=
        siguiente_cabeza j.direccion cabeza :: (cabeza :: cuerpo).dropLast }

/-- `crecer_serpiente` (lines 314-321): append a fresh segment; a new
turtle starts at the origin (its position is irrelevant, it is
overwritten on the next move). -/
def crecer_serpiente (j : JuegoSnake) : JuegoSnake :=
  { j with serpiente := j.serpiente ++ [⟨0, 0⟩] }

/-! ## Collisions -/

/-- `verificar_colisiones` (lines 323-337): wall collision at `|x| > 290`
or `|y| > 290`, self collision when the head is within distance 10 of a
body segment. -/
def verificar_colisiones (j : JuegoSnake) : Bool :=
  match j.serpiente with
  | [] => false
  | cabeza :: cuerpo =>
    (290 < cabeza.x || cabeza.x < -290 || 290 < cabeza.y || cabeza.y < -290) ||
      cuerpo.any fun segmento => distancia_menor cabeza segmento 10

/-- `verificar_colision_obstaculos` (lines 339-345): collision when the
head is within distance 15 of an obstacle. -/
def verificar_colision_obstaculos (j : JuegoSnake) : Bool :=
  match j.serpiente with
  | [] => false
  | cabeza :: _ =>
    j.obstaculos.any fun obstaculo => distancia_menor cabeza obstaculo 15

/-! ## Food effects (lines 56-105) -/

/-- The four `aplicar_efecto` methods of the food classes, dispatched on
the variant tag. -/
def aplicar_efecto (tipo : TipoComida) (j : JuegoSnake) : JuegoSnake :=
  match tipo with
  | .venenosa =>
    if 1 < j.serpiente.length then
      mostrar_mensaje "¡Comida Venenosa! -1 punto" "purple"
        { j with serpiente := j.serpiente.dropLast,
                 puntaje := max 0 (j.puntaje - 1) }
    else
      mostrar_mensaje "¡Comida Venenosa! Sin efecto" "purple" j
  | .fit =>
    mostrar_mensaje "¡Comida Fit! +1 punto" "green"
      { (crecer_serpiente j) with puntaje := j.puntaje + 1 }
  | .alto_grasas =>
    mostrar_mensaje "¡Alto en Grasas! +3 puntos (Lento)" "gold"
      { (crecer_serpiente j) with
          puntaje := j.puntaje + 3,
          velocidad_actual := max 50 (j.velocidad_actual - 50),
          efecto_temporal := some ⟨.lento, 5⟩ }
  | .real =>
    mostrar_mensaje "¡Comida Real! +5 puntos (Rápido)" "orange"
      { (crecer_serpiente j) with
          puntaje := j.puntaje + 5,
          velocidad_actual := min 300 (j.velocidad_actual + 30),
          efecto_temporal := some ⟨.rapido, 5⟩ }

/-! ## Food spawning (lines 149-168 and 393-415) -/

/-- `GestorFabricas.crear_comida_aleatoria`, with the two raw
`random.randint(-280, 280)` draws and the weighted-choice result passed
in: snap the coordinates to the grid and build the food. -/
def crear_comida_aleatoria (rx ry : Int) (tipo : TipoComida) : Comida :=
  ⟨tipo, ⟨alinear rx, alinear ry⟩⟩

/-- The conflict test of `generar_nueva_comida` (lines 399-409): the
candidate clashes with an obstacle or a snake segment when both
coordinate distances are below 20. -/
def comida_en_conflicto (j : JuegoSnake) (c : Comida) : Bool :=
  (j.obstaculos.any fun o =>
      (c.pos.x - o.x).natAbs < 20 && (c.pos.y - o.y).natAbs < 20) ||
    (j.serpiente.any fun s =>
      (c.pos.x - s.x).natAbs < 20 && (c.pos.y - s.y).natAbs < 20)

/-- `generar_nueva_comida` (lines 393-415): rejection-sample candidates
until one is conflict-free; the random stream is explicit and exhausting
it yields `none` (the Python loop would keep drawing forever). -/
def generar_nueva_comida :
    List (Int × Int × TipoComida) → JuegoSnake → Option JuegoSnake
  | [], _ => none
  | (rx, ry, tipo) :: resto, j =>
    let c := crear_comida_aleatoria rx ry tipo
    if comida_en_conflicto j c then generar_nueva_comida resto j
    else some { j with comida := some c }

/-! ## Obstacle generation (lines 347-372) -/

/-- Validity of an already-snapped obstacle candidate: outside the centre
box (`|x| > 40` or `|y| > 40`) and not within the 40×40 conflict box of
any existing obstacle. -/
def obstaculo_valido (obstaculos : List Pos) (p : Pos) : Bool :=
  (40 < p.x.natAbs || 40 < p.y.natAbs) &&
    !(obstaculos.any fun o =>
        (o.x - p.x).natAbs < 40 && (o.y - p.y).natAbs < 40)

/-- The inner `while True` of `generar_obstaculos`: consume raw draws
until one snaps to a valid position. -/
def elegir_obstaculo (obstaculos : List Pos) :
    List (Int × Int) → Option (Pos × List (Int × Int))
  | [] => none
  | (rx, ry) :: resto =>
    let p : Pos := ⟨alinear rx, alinear ry⟩
    if obstaculo_valido obstaculos p then some (p, resto)
    else elegir_obstaculo obstaculos resto

/-- The outer `for` of `generar_obstaculos`: place `n` obstacles one
after another, each validated against all previously placed ones. -/
def generar_obstaculos_aux :
    Nat → List Pos → List (Int × Int) → Option (List Pos)
  | 0, obstaculos, _ => some obstaculos
  | n + 1, obstaculos, candidatos =>
    match elegir_obstaculo obstaculos candidatos with
    | none => none
    | some (p, resto) => generar_obstaculos_aux n (obstaculos ++ [p]) resto

/-- `generar_obstaculos` (lines 347-372): append `(nivel - 1) * 2` newly
sampled obstacles to the current list. -/
def generar_obstaculos (candidatos : List (Int × Int)) (j : JuegoSnake) :
    Option JuegoSnake :=
  match generar_obstaculos_aux ((j.nivel - 1) * 2) j.obstaculos candidatos with
  | none => none
  | some obstaculos => some { j with obstaculos := obstaculos }

/-! ## Levelling and temporary effects -/

/-- `verificar_subida_nivel` (lines 384-391). -/
def verificar_subida_nivel (co : List (Int × Int)) (j : JuegoSnake) :
    Option JuegoSnake :=
  let nuevo_nivel := j.puntaje / PUNTOS_POR_NIVEL + 1
  if j.nivel < nuevo_nivel then
    generar_obstaculos co
      (mostrar_mensaje
        ("¡NIVEL " ++ toString nuevo_nivel ++ "! Más velocidad y obstáculos")
        "cyan"
        { j with nivel := nuevo_nivel,
                 velocidad_actual := VELOCIDAD_BASE + ((nuevo_nivel : Int) - 1) * 20 })
  else some j

/-- `actualizar_efectos_temporales` (lines 417-424): decrement the
remaining ticks; at zero or below, clear the effect and set the speed to
the constant `VELOCIDAD_BASE`. -/
def actualizar_efectos_temporales (j : JuegoSnake) : JuegoSnake :=
  match j.efecto_temporal with
  | none => j
  | some efecto =>
    if efecto.duracion - 1 ≤ 0 then
      { j with velocidad_actual := VELOCIDAD_BASE, efecto_temporal := none }
    else
      { j with efecto_temporal := some ⟨efecto.tipo, efecto.duracion - 1⟩ }

/-- `verificar_comida` (lines 374-382): when the head is within distance
15 of the live food, apply its effect, hide it, spawn a replacement and
run the level-up check. -/
def verificar_comida (cc : List (Int × Int × TipoComida))
    (co : List (Int × Int)) (j : JuegoSnake) : Option JuegoSnake :=
  match j.serpiente, j.comida with
  | cabeza :: _, some c =>
    if distancia_menor cabeza c.pos 15 then
      let comido := { (aplicar_efecto c.tipo j) with comida := none }
      match generar_nueva_comida cc comido with
      | none => none
      | some j1 => verificar_subida_nivel co j1
    else some j
  | _, _ => some j

/-- The part of `actualizar_pantalla` (lines 432-451) that touches game
state: counting down the message display budget. -/
def actualizar_pantalla (j : JuegoSnake) : JuegoSnake :=
  if 0 < j.tiempo_mensaje then { j with tiempo_mensaje := j.tiempo_mensaje - 1 } else j

/-! ## Initialisation, reset and the main loop (lines 224-267, 453-508) -/

/-- The state built by the first `inicializar_juego` call in
`JuegoSnake.__init__`: score 0, level 1, no games played yet; at level 1
the obstacle generator places `(1 - 1) * 2 = 0` obstacles, so no random
draws are consumed.  The food is spawned separately (`juego_nuevo`). -/
def estado_inicial : JuegoSnake :=
  { serpiente := [⟨0, 0⟩], obstaculos := [], comida := none,
    direccion := .derecha, puntaje := 0, nivel := 1, juegos_jugados := 0,
    velocidad_actual := VELOCIDAD_BASE, efecto_temporal := none,
    mensaje_actual := "", color_mensaje := "white", tiempo_mensaje := 0 }

/-- `inicializar_juego` on re-initialisation (lines 224-267): the old
snake, obstacles and food are hidden and replaced; score, level and games
played persist (the `hasattr` guard); the speed is recomputed from the
level; then a fresh obstacle batch is generated. -/
def inicializar_juego (co : List (Int × Int)) (j : JuegoSnake) :
    Option JuegoSnake :=
  generar_obstaculos co
    { j with
        serpiente := [⟨0, 0⟩],
        obstaculos := [],
        comida := none,
        direccion := .derecha,
        velocidad_actual := VELOCIDAD_BASE + ((j.nivel : Int) - 1) * 20,
        efecto_temporal := none,
        mensaje_actual := "",
        tiempo_mensaje := 0 }

/-- `JuegoSnake.__init__`: initial state plus the first food spawn. -/
def juego_nuevo (cc : List (Int × Int × TipoComida)) : Option JuegoSnake :=
  generar_nueva_comida cc estado_inicial

/-- `game_over` (lines 453-478): bump the games counter, reinitialise,
spawn a food, and post the restart message. -/
def game_over (cc : List (Int × Int × TipoComida)) (co : List (Int × Int))
    (j : JuegoSnake) : Option JuegoSnake :=
  match inicializar_juego co { j with juegos_jugados := j.juegos_jugados + 1 } with
  | none => none
  | some j1 =>
    match generar_nueva_comida cc j1 with
    | none => none
    | some j2 =>
      some (mostrar_mensaje
        ("¡Juego Reiniciado! Partida #" ++ toString j2.juegos_jugados)
        "yellow" j2)

/-- The death test at the top of each loop iteration of `ejecutar`. -/
def muere (j : JuegoSnake) : Bool :=
  verificar_colisiones j || verificar_colision_obstaculos j

/-- One iteration of the `while True` loop of `ejecutar` (lines 480-508):
on a collision run `game_over` and skip the rest; otherwise move, handle
food, decay effects and update the display counters. -/
def tick (cc : List (Int × Int × TipoComida)) (co : List (Int × Int))
    (j : JuegoSnake) : Option JuegoSnake :=
  if muere j then game_over cc co j
  else
    match verificar_comida cc co (mover_serpiente j) with
    | none => none
    | some j1 => some (actualizar_pantalla (actualizar_efectos_temporales j1))

/-- External stimuli of the engine: a keyboard direction change (handled
between ticks) or one tick with its random streams. -/
inductive Evento where
  | tecla (d : Direccion)
  | tick (cc : List (Int × Int × TipoComida)) (co : List (Int × Int))
deriving Repr

/-- Apply one event. -/
def paso (e : Evento) (j : JuegoSnake) : Option JuegoSnake :=
  match e with
  | .tecla d => some (cambiar_direccion d j)
  | .tick cc co => tick cc co j

/-- Run a list of events; `none` as soon as a random stream is exhausted. -/
def ejecutar_eventos : List Evento → JuegoSnake → Option JuegoSnake
  | [], j => some j
  | e :: resto, j =>
    match paso e j with
    | none => none
    | some j1 => ejecutar_eventos resto j1

/-- `true` when no tick of the event list starts in a dead configuration,
i.e. the run performs no death-reset. -/
def sin_muertes : List Evento → JuegoSnake → Bool
  | [], _ => true
  | .tecla d :: resto, j => sin_muertes resto (cambiar_direccion d j)
  | .tick cc co :: resto, j =>
    if muere j then false
    else
      match tick cc co j with
      | none => false
      | some j1 => sin_muertes resto j1


/-! ## Concrete states and event traces used in scenarios -/

/-- The first food spawn of a fresh game: one `real` food at `(20, 0)`,
directly in front of the snake's head. -/
def cc0 : List (Int × Int × TipoComida) := [(20, 0, .real)]

/-- The state of a fresh game spawned with `cc0`. -/
def juego_inicial_cc0 : JuegoSnake :=
  { estado_inicial with comida := some ⟨.real, ⟨20, 0⟩⟩ }

/-- Ten consecutive ticks in which the snake moves right and eats a
`real` food each time (`+5` points per tick); the tenth consumption
brings the score to 50 and triggers the level-up to level 2, whose
obstacle batch is drawn from the two far-corner candidates. -/
def traza_subida : List Evento :=
  (List.range 9).map
    (fun k => Evento.tick [((20 * (k + 2) : Int), 0, TipoComida.real)] []) ++
    [Evento.tick [(220, 0, TipoComida.real)] [(-280, -280), (-200, -280)]]

/-- `traza_subida` followed by a turn upwards and four food-free ticks:
the `rapido` effect set by the tenth consumption (duration 5, already
decremented once on that tick) expires on the fourth extra tick. -/
def trazaC3a : List Evento :=
  traza_subida ++
    [Evento.tecla .arriba, Evento.tick [] [], Evento.tick [] [],
     Evento.tick [] [], Evento.tick [] []]

/-- `trazaC3a` plus one more food-free tick in which no effect is active
and none is applied. -/
def trazaC3 : List Evento := trazaC3a ++ [Evento.tick [] []]

/-- A level-2 state with one tick left on a `lento` effect. -/
def jC1 : JuegoSnake :=
  { serpiente := [⟨0, 0⟩], obstaculos := [], comida := none,
    direccion := .derecha, puntaje := 60, nivel := 2, juegos_jugados := 0,
    velocidad_actual := 120, efecto_temporal := some ⟨.lento, 1⟩,
    mensaje_actual := "", color_mensaje := "white", tiempo_mensaje := 0 }

/-- A level-3 state carrying the six obstacles a continuous session
accumulates by level 3 (`2 + 4`). -/
def jC2 : JuegoSnake :=
  { serpiente := [⟨0, 0⟩],
    obstaculos := [⟨-240, 200⟩, ⟨-160, 200⟩, ⟨-80, 200⟩, ⟨0, 200⟩,
                   ⟨80, 200⟩, ⟨160, 200⟩],
    comida := some ⟨.fit, ⟨240, -120⟩⟩, direccion := .derecha,
    puntaje := 120, nivel := 3, juegos_jugados := 0,
    velocidad_actual := 190, efecto_temporal := none,
    mensaje_actual := "", color_mensaje := "white", tiempo_mensaje := 0 }

/-- The state `game_over` produces from `jC2` with the concrete food and
obstacle draws used in the C2 scenario. -/
def jC2res : JuegoSnake :=
  { serpiente := [⟨0, 0⟩],
    obstaculos := [⟨-240, -240⟩, ⟨-160, -240⟩, ⟨-80, -240⟩, ⟨0, -240⟩],
    comida := some ⟨.fit, ⟨240, 240⟩⟩, direccion := .derecha,
    puntaje := 120, nivel := 3, juegos_jugados := 1,
    velocidad_actual := 190, efecto_temporal := none,
    mensaje_actual := "¡Juego Reiniciado! Partida #1",
    color_mensaje := "yellow", tiempo_mensaje := 60 }

/-- A level-1 state with score 49, one Fit food away from levelling up. -/
def j49 : JuegoSnake :=
  { serpiente := [⟨0, 0⟩], obstaculos := [], comida := none,
    direccion := .derecha, puntaje := 49, nivel := 1, juegos_jugados := 0,
    velocidad_actual := 150, efecto_temporal := none,
    mensaje_actual := "", color_mensaje := "white", tiempo_mensaje := 0 }

/-- The state reached from `j49` by eating a Fit food and running the
level-up check with the two far-corner obstacle draws. -/
def j49res : JuegoSnake :=
  { serpiente := [⟨0, 0⟩, ⟨0, 0⟩], obstaculos := [⟨-280, -280⟩, ⟨-200, -280⟩],
    comida := none, direccion := .derecha, puntaje := 50, nivel := 2,
    juegos_jugados := 0, velocidad_actual := 170, efecto_temporal := none,
    mensaje_actual := "¡NIVEL 2! Más velocidad y obstáculos",
    color_mensaje := "cyan", tiempo_mensaje := 60 }

/-- A three-segment snake heading right. -/
def jC6 : JuegoSnake :=
  { serpiente := [⟨40, 0⟩, ⟨20, 0⟩, ⟨0, 0⟩], obstaculos := [], comida := none,
    direccion := .derecha, puntaje := 0, nivel := 1, juegos_jugados := 0,
    velocidad_actual := 150, efecto_temporal := none,
    mensaje_actual := "", color_mensaje := "white", tiempo_mensaje := 0 }

/-- A two-segment snake one step away from the right wall: its next move
puts the head at `x = 300`, and the tick after that dies. -/
def jC7 : JuegoSnake :=
  { serpiente := [⟨280, 0⟩, ⟨260, 0⟩], obstaculos := [],
    comida := some ⟨.fit, ⟨0, 200⟩⟩, direccion := .derecha,
    puntaje := 7, nivel := 1, juegos_jugados := 0,
    velocidad_actual := 150, efecto_temporal := none,
    mensaje_actual := "", color_mensaje := "white", tiempo_mensaje := 0 }

/-- A state used for the food-spawn scenario: one obstacle at
`(100, 100)` that rules out the first random draw. -/
def jC8 : JuegoSnake :=
  { serpiente := [⟨0, 0⟩], obstaculos := [⟨100, 100⟩], comida := none,
    direccion := .derecha, puntaje := 0, nivel := 1, juegos_jugados := 0,
    velocidad_actual := 150, efecto_temporal := none,
    mensaje_actual := "", color_mensaje := "white", tiempo_mensaje := 0 }

/-- A two-segment snake heading right, food far out of reach. -/
def jC10 : JuegoSnake :=
  { serpiente := [⟨20, 0⟩, ⟨0, 0⟩], obstaculos := [],
    comida := some ⟨.fit, ⟨200, 200⟩⟩, direccion := .derecha,
    puntaje := 0, nivel := 1, juegos_jugados := 0,
    velocidad_actual := 150, efecto_temporal := none,
    mensaje_actual := "", color_mensaje := "white", tiempo_mensaje := 0 }

/-! ## The obstacle-count session invariant -/

/-- Within a continuous session (no death-reset), the obstacle list always
has exactly `(nivel - 1) * nivel` entries, and the level both dominates
`puntaje / 50 + 1` and stays at least 1. -/
def InvarianteObstaculos (j : JuegoSnake) : Prop :=
  j.obstaculos.length = (j.nivel - 1) * j.nivel ∧
    j.puntaje / PUNTOS_POR_NIVEL + 1 ≤ j.nivel ∧ 1 ≤ j.nivel

/-! ## Helper lemmas about the rejection samplers -/

theorem generar_obstaculos_aux_length :
    ∀ (n : Nat) (obs : List Pos) (cands : List (Int × Int)) (obs' : List Pos),
      generar_obstaculos_aux n obs cands = some obs' →
      obs'.length = obs.length + n := by
  intro n
  induction n with
  | zero =>
    intro obs cands obs' h
    simp only [generar_obstaculos_aux, Option.some.injEq] at h
    simp [← h]
  | succ n ih =>
    intro obs cands obs' h
    simp only [generar_obstaculos_aux] at h
    cases helegir : elegir_obstaculo obs cands with
    | none => rw [helegir] at h; cases h
    | some pr =>
      rw [helegir] at h
      have := ih (obs ++ [pr.1]) pr.2 obs' h
      simp only [List.length_append, List.length_cons, List.length_nil] at this
      omega

theorem generar_obstaculos_eq (cands : List (Int × Int)) (j j' : JuegoSnake)
    (h : generar_obstaculos cands j = some j') :
    ∃ obs : List Pos, j' = { j with obstaculos := obs } ∧
      obs.length = j.obstaculos.length + (j.nivel - 1) * 2 := by
  unfold generar_obstaculos at h
  cases haux : generar_obstaculos_aux ((j.nivel - 1) * 2) j.obstaculos cands with
  | none => rw [haux] at h; cases h
  | some obs =>
    rw [haux] at h
    injection h with h
    exact ⟨obs, h.symm, generar_obstaculos_aux_length _ _ _ _ haux⟩

theorem alinear_mod (x : Int) : alinear x % TAMANO_CELDA = 0 :=
  Int.mul_emod_left _ _

theorem generar_nueva_comida_eq :
    ∀ (cands : List (Int × Int × TipoComida)) (j j' : JuegoSnake),
      generar_nueva_comida cands j = some j' →
      ∃ c : Comida, j' = { j with comida := some c } ∧
        comida_en_conflicto j c = false ∧
        c.pos.x % TAMANO_CELDA = 0 ∧ c.pos.y % TAMANO_CELDA = 0 := by
  intro cands
  induction cands with
  | nil => intro j j' h; simp [generar_nueva_comida] at h
  | cons cand resto ih =>
    intro j j' h
    obtain ⟨rx, ry, tipo⟩ := cand
    simp only [generar_nueva_comida] at h
    split at h
    · exact ih j j' h
    · injection h with h
      refine ⟨crear_comida_aleatoria rx ry tipo, h.symm, ?_, ?_, ?_⟩
      · simp_all
      · exact alinear_mod rx
      · exact alinear_mod ry

/-! ## Which fields each operation leaves untouched -/

theorem mover_serpiente_campos (j : JuegoSnake) :
    (mover_serpiente j).obstaculos = j.obstaculos ∧
    (mover_serpiente j).comida = j.comida ∧
    (mover_serpiente j).puntaje = j.puntaje ∧
    (mover_serpiente j).nivel = j.nivel ∧
    (mover_serpiente j).juegos_jugados = j.juegos_jugados ∧
    (mover_serpiente j).velocidad_actual = j.velocidad_actual ∧
    (mover_serpiente j).efecto_temporal = j.efecto_temporal ∧
    (mover_serpiente j).serpiente.length = j.serpiente.length := by
  unfold mover_serpiente
  cases h : j.serpiente with
  | nil => simp [h]
  | cons cabeza cuerpo => simp [List.length_dropLast]

theorem actualizar_efectos_campos (j : JuegoSnake) :
    (actualizar_efectos_temporales j).serpiente = j.serpiente ∧
    (actualizar_efectos_temporales j).obstaculos = j.obstaculos ∧
    (actualizar_efectos_temporales j).comida = j.comida ∧
    (actualizar_efectos_temporales j).puntaje = j.puntaje ∧
    (actualizar_efectos_temporales j).nivel = j.nivel ∧
    (actualizar_efectos_temporales j).juegos_jugados = j.juegos_jugados ∧
    (actualizar_efectos_temporales j).direccion = j.direccion := by
  unfold actualizar_efectos_temporales
  cases j.efecto_temporal with
  | none => simp
  | some e => by_cases hd : e.duracion - 1 ≤ 0 <;> simp [hd]

theorem actualizar_pantalla_campos (j : JuegoSnake) :
    (actualizar_pantalla j).serpiente = j.serpiente ∧
    (actualizar_pantalla j).obstaculos = j.obstaculos ∧
    (actualizar_pantalla j).comida = j.comida ∧
    (actualizar_pantalla j).puntaje = j.puntaje ∧
    (actualizar_pantalla j).nivel = j.nivel ∧
    (actualizar_pantalla j).juegos_jugados = j.juegos_jugados ∧
    (actualizar_pantalla j).velocidad_actual = j.velocidad_actual ∧
    (actualizar_pantalla j).efecto_temporal = j.efecto_temporal ∧
    (actualizar_pantalla j).direccion = j.direccion := by
  unfold actualizar_pantalla
  by_cases h : 0 < j.tiempo_mensaje <;> simp [h]

theorem cambiar_direccion_campos (d : Direccion) (j : JuegoSnake) :
    (cambiar_direccion d j).serpiente = j.serpiente ∧
    (cambiar_direccion d j).obstaculos = j.obstaculos ∧
    (cambiar_direccion d j).comida = j.comida ∧
    (cambiar_direccion d j).puntaje = j.puntaje ∧
    (cambiar_direccion d j).nivel = j.nivel ∧
    (cambiar_direccion d j).juegos_jugados = j.juegos_jugados ∧
    (cambiar_direccion d j).velocidad_actual = j.velocidad_actual ∧
    (cambiar_direccion d j).efecto_temporal = j.efecto_temporal := by
  unfold cambiar_direccion
  by_cases h : d ≠ direcciones_opuestas j.direccion <;> simp [h]

theorem aplicar_efecto_inmutables (t : TipoComida) (j : JuegoSnake) :
    (aplicar_efecto t j).obstaculos = j.obstaculos ∧
    (aplicar_efecto t j).nivel = j.nivel ∧
    (aplicar_efecto t j).juegos_jugados = j.juegos_jugados ∧
    (aplicar_efecto t j).direccion = j.direccion ∧
    (aplicar_efecto t j).comida = j.comida := by
  cases t <;> simp [aplicar_efecto, mostrar_mensaje, crecer_serpiente] <;> split <;> simp

theorem aplicar_efecto_puntaje_le (t : TipoComida) (j : JuegoSnake) :
    (aplicar_efecto t j).puntaje ≤ j.puntaje + 5 := by
  cases t <;> simp [aplicar_efecto, mostrar_mensaje, crecer_serpiente]
  split <;> simp <;> omega

theorem aplicar_efecto_serpiente_pos (t : TipoComida) (j : JuegoSnake)
    (h : 1 ≤ j.serpiente.length) : 1 ≤ (aplicar_efecto t j).serpiente.length := by
  cases t <;> simp [aplicar_efecto, mostrar_mensaje, crecer_serpiente]
  split
  · simp [List.length_dropLast]; omega
  · simpa

/-! ## Level-up, reset and food-check unfoldings -/

theorem verificar_subida_nivel_no (co : List (Int × Int)) (j : JuegoSnake)
    (h : ¬ j.nivel < j.puntaje / PUNTOS_POR_NIVEL + 1) :
    verificar_subida_nivel co j = some j := by
  unfold verificar_subida_nivel
  simp [h]

theorem verificar_subida_nivel_eq (co : List (Int × Int)) (j j' : JuegoSnake)
    (h : verificar_subida_nivel co j = some j')
    (hlt : j.nivel < j.puntaje / PUNTOS_POR_NIVEL + 1) :
    j'.nivel = j.puntaje / PUNTOS_POR_NIVEL + 1 ∧
    j'.velocidad_actual = VELOCIDAD_BASE + ((j'.nivel : Int) - 1) * 20 ∧
    j'.obstaculos.length = j.obstaculos.length + (j'.nivel - 1) * 2 ∧
    j'.serpiente = j.serpiente ∧
    j'.puntaje = j.puntaje ∧
    j'.comida = j.comida ∧
    j'.efecto_temporal = j.efecto_temporal ∧
    j'.juegos_jugados = j.juegos_jugados ∧
    j'.direccion = j.direccion ∧
    j'.mensaje_actual =
      "¡NIVEL " ++ toString (j.puntaje / PUNTOS_POR_NIVEL + 1) ++
        "! Más velocidad y obstáculos" ∧
    j'.tiempo_mensaje = 60 := by
  unfold verificar_subida_nivel at h
  rw [if_pos hlt] at h
  obtain ⟨obs, rfl, hlen⟩ := generar_obstaculos_eq _ _ _ h
  simp only [mostrar_mensaje] at hlen ⊢
  simp_all

theorem inicializar_juego_eq (co : List (Int × Int)) (j j' : JuegoSnake)
    (h : inicializar_juego co j = some j') :
    j'.serpiente = [⟨0, 0⟩] ∧ j'.obstaculos.length = (j.nivel - 1) * 2 ∧
    j'.comida = none ∧ j'.direccion = .derecha ∧
    j'.puntaje = j.puntaje ∧ j'.nivel = j.nivel ∧
    j'.juegos_jugados = j.juegos_jugados ∧
    j'.velocidad_actual = VELOCIDAD_BASE + ((j.nivel : Int) - 1) * 20 ∧
    j'.efecto_temporal = none := by
  unfold inicializar_juego at h
  obtain ⟨obs, rfl, hlen⟩ := generar_obstaculos_eq _ _ _ h
  simp_all

theorem game_over_eq (cc : List (Int × Int × TipoComida)) (co : List (Int × Int))
    (j j' : JuegoSnake) (h : game_over cc co j = some j') :
    j'.puntaje = j.puntaje ∧ j'.nivel = j.nivel ∧
    j'.juegos_jugados = j.juegos_jugados + 1 ∧ j'.serpiente = [⟨0, 0⟩] ∧
    j'.direccion = .derecha ∧ j'.efecto_temporal = none ∧
    j'.obstaculos.length = (j.nivel - 1) * 2 ∧
    j'.velocidad_actual = VELOCIDAD_BASE + ((j.nivel : Int) - 1) * 20 := by
  unfold game_over at h
  cases h1 : inicializar_juego co { j with juegos_jugados := j.juegos_jugados + 1 } with
  | none => rw [h1] at h; cases h
  | some j1 =>
    rw [h1] at h
    dsimp only at h
    cases h2 : generar_nueva_comida cc j1 with
    | none => rw [h2] at h; cases h
    | some j2 =>
      rw [h2] at h
      dsimp only at h
      injection h with h
      obtain ⟨i1, i2, i3, i4, i5, i6, i7, i8, i9⟩ := inicializar_juego_eq _ _ _ h1
      obtain ⟨c, rfl, -, -, -⟩ := generar_nueva_comida_eq _ _ _ h2
      subst h
      simp_all [mostrar_mensaje]

theorem verificar_comida_cases (cc : List (Int × Int × TipoComida))
    (co : List (Int × Int)) (j j' : JuegoSnake)
    (h : verificar_comida cc co j = some j') :
    j' = j ∨
    ∃ (c : Comida) (j1 : JuegoSnake),
      j.comida = some c ∧
      generar_nueva_comida cc { (aplicar_efecto c.tipo j) with comida := none } = some j1 ∧
      verificar_subida_nivel co j1 = some j' := by
  unfold verificar_comida at h
  split at h
  next cabeza resto c hs hc =>
    split at h
    · dsimp only at h
      cases hgen : generar_nueva_comida cc { (aplicar_efecto c.tipo j) with comida := none } with
      | none => rw [hgen] at h; cases h
      | some j1 =>
        rw [hgen] at h
        exact Or.inr ⟨c, j1, hc, hgen, h⟩
    · injection h with h
      exact Or.inl h.symm
  next =>
    injection h with h
    exact Or.inl h.symm

/-! ## Preservation of the obstacle-count invariant -/

theorem subida_preserva (co : List (Int × Int)) (j j' : JuegoSnake)
    (h : verificar_subida_nivel co j = some j')
    (hobs : j.obstaculos.length = (j.nivel - 1) * j.nivel)
    (hniv : 1 ≤ j.nivel)
    (hpun : j.puntaje / PUNTOS_POR_NIVEL + 1 ≤ j.nivel + 1) :
    InvarianteObstaculos j' := by
  by_cases hlt : j.nivel < j.puntaje / PUNTOS_POR_NIVEL + 1
  · obtain ⟨e1, e2, e3, e4, e5, e6, e7, e8, e9, e10, e11⟩ :=
      verificar_subida_nivel_eq co j j' h hlt
    have hnuevo : j.puntaje / PUNTOS_POR_NIVEL + 1 = j.nivel + 1 := by omega
    obtain ⟨m, hm⟩ : ∃ m, j.nivel = m + 1 := ⟨j.nivel - 1, by omega⟩
    refine ⟨?_, ?_, ?_⟩
    · rw [e3, e1, hobs, hnuevo, hm]
      simp only [Nat.add_sub_cancel]
      ring
    · rw [e5, e1]
    · rw [e1]; omega
  · rw [verificar_subida_nivel_no co j hlt] at h
    injection h with h
    subst h
    exact ⟨hobs, by omega, hniv⟩

theorem comida_preserva (cc : List (Int × Int × TipoComida)) (co : List (Int × Int))
    (j j' : JuegoSnake) (h : verificar_comida cc co j = some j')
    (hinv : InvarianteObstaculos j) : InvarianteObstaculos j' := by
  obtain ⟨hobs, hpun, hniv⟩ := hinv
  rcases verificar_comida_cases cc co j j' h with rfl | ⟨c, j1, hc, hgen, hsub⟩
  · exact ⟨hobs, hpun, hniv⟩
  · obtain ⟨cnew, rfl, -, -, -⟩ := generar_nueva_comida_eq _ _ _ hgen
    obtain ⟨a1, a2, a3, a4, a5⟩ := aplicar_efecto_inmutables c.tipo j
    have hple := aplicar_efecto_puntaje_le c.tipo j
    apply subida_preserva co _ _ hsub
    · simpa [a1, a2] using hobs
    · simpa [a2] using hniv
    · have h1 : (aplicar_efecto c.tipo j).puntaje / PUNTOS_POR_NIVEL ≤
          (j.puntaje + PUNTOS_POR_NIVEL) / PUNTOS_POR_NIVEL :=
        Nat.div_le_div_right (by unfold PUNTOS_POR_NIVEL; omega)
      rw [Nat.add_div_right _ (by unfold PUNTOS_POR_NIVEL; omega)] at h1
      show (aplicar_efecto c.tipo j).puntaje / PUNTOS_POR_NIVEL + 1 ≤
        (aplicar_efecto c.tipo j).nivel + 1
      rw [a2]
      omega

theorem tick_preserva (cc : List (Int × Int × TipoComida)) (co : List (Int × Int))
    (j j' : JuegoSnake) (hm : muere j = false) (h : tick cc co j = some j')
    (hinv : InvarianteObstaculos j) : InvarianteObstaculos j' := by
  unfold tick at h
  rw [hm] at h
  simp only [Bool.false_eq_true, if_false] at h
  cases hcom : verificar_comida cc co (mover_serpiente j) with
  | none => rw [hcom] at h; cases h
  | some j1 =>
    rw [hcom] at h
    injection h with h
    subst h
    obtain ⟨m1, -, -, m4, -, -, -, -⟩ := mover_serpiente_campos j
    have hmov : InvarianteObstaculos (mover_serpiente j) := by
      obtain ⟨i1, i2, i3⟩ := hinv
      exact ⟨by rw [m1, m4]; exact i1, by
        have := (mover_serpiente_campos j).2.2.1
        rw [this, m4]; exact i2, by rw [m4]; exact i3⟩
    have h1 := comida_preserva cc co _ _ hcom hmov
    obtain ⟨d1, d2, -, d4, d5, -, -⟩ := actualizar_efectos_campos j1
    obtain ⟨p1, p2, -, p4, p5, -, -, -, -⟩ :=
      actualizar_pantalla_campos (actualizar_efectos_temporales j1)
    obtain ⟨i1, i2, i3⟩ := h1
    exact ⟨by rw [p2, p5, d2, d5]; exact i1,
           by rw [p4, p5, d4, d5]; exact i2,
           by rw [p5, d5]; exact i3⟩

theorem ejecutar_preserva :
    ∀ (evs : List Evento) (j0 j : JuegoSnake),
      sin_muertes evs j0 = true → ejecutar_eventos evs j0 = some j →
      InvarianteObstaculos j0 → InvarianteObstaculos j := by
  intro evs
  induction evs with
  | nil =>
    intro j0 j _ h hinv
    injection h with h
    subst h
    exact hinv
  | cons e resto ih =>
    intro j0 j hsm h hinv
    cases e with
    | tecla d =>
      simp only [sin_muertes] at hsm
      simp only [ejecutar_eventos, paso] at h
      apply ih _ _ hsm h
      obtain ⟨c1, c2, -, c4, c5, -, -, -⟩ := cambiar_direccion_campos d j0
      obtain ⟨i1, i2, i3⟩ := hinv
      exact ⟨by rw [c2, c5]; exact i1, by rw [c4, c5]; exact i2, by rw [c5]; exact i3⟩
    | tick cc co =>
      simp only [sin_muertes] at hsm
      simp only [ejecutar_eventos, paso] at h
      by_cases hmj : muere j0
      · rw [if_pos hmj] at hsm
        cases hsm
      · rw [if_neg hmj] at hsm
        cases htk : tick cc co j0 with
        | none => rw [htk] at hsm; cases hsm
        | some j1 =>
          rw [htk] at hsm h
          apply ih _ _ hsm h
          exact tick_preserva cc co j0 j1 (by simpa using hmj) htk hinv

/-! ## The snake never vanishes -/

theorem verificar_subida_serpiente (co : List (Int × Int)) (j j' : JuegoSnake)
    (h : verificar_subida_nivel co j = some j') : j'.serpiente = j.serpiente := by
  by_cases hlt : j.nivel < j.puntaje / PUNTOS_POR_NIVEL + 1
  · exact (verificar_subida_nivel_eq co j j' h hlt).2.2.2.1
  · rw [verificar_subida_nivel_no co j hlt] at h
    injection h with h
    rw [← h]

theorem comida_serpiente_pos (cc : List (Int × Int × TipoComida))
    (co : List (Int × Int)) (j j' : JuegoSnake)
    (h : verificar_comida cc co j = some j')
    (hp : 1 ≤ j.serpiente.length) : 1 ≤ j'.serpiente.length := by
  rcases verificar_comida_cases cc co j j' h with rfl | ⟨c, j1, -, hgen, hsub⟩
  · exact hp
  · obtain ⟨cnew, rfl, -, -, -⟩ := generar_nueva_comida_eq _ _ _ hgen
    rw [verificar_subida_serpiente co _ _ hsub]
    show 1 ≤ (aplicar_efecto c.tipo j).serpiente.length
    exact aplicar_efecto_serpiente_pos c.tipo j hp

theorem tick_serpiente_pos (cc : List (Int × Int × TipoComida))
    (co : List (Int × Int)) (j j' : JuegoSnake)
    (h : tick cc co j = some j')
    (hp : 1 ≤ j.serpiente.length) : 1 ≤ j'.serpiente.length := by
  unfold tick at h
  by_cases hm : muere j
  · rw [if_pos hm] at h
    rw [(game_over_eq _ _ _ _ h).2.2.2.1]
    simp
  · rw [if_neg hm] at h
    cases hcom : verificar_comida cc co (mover_serpiente j) with
    | none => rw [hcom] at h; cases h
    | some j1 =>
      rw [hcom] at h
      injection h with h
      subst h
      have hm1 : 1 ≤ (mover_serpiente j).serpiente.length := by
        rw [(mover_serpiente_campos j).2.2.2.2.2.2.2]
        exact hp
      have h1 := comida_serpiente_pos cc co _ _ hcom hm1
      rw [(actualizar_pantalla_campos _).1, (actualizar_efectos_campos _).1]
      exact h1

theorem ejecutar_serpiente_pos :
    ∀ (evs : List Evento) (j0 j : JuegoSnake),
      ejecutar_eventos evs j0 = some j → 1 ≤ j0.serpiente.length →
      1 ≤ j.serpiente.length := by
  intro evs
  induction evs with
  | nil =>
    intro j0 j h hp
    injection h with h
    subst h
    exact hp
  | cons e resto ih =>
    intro j0 j h hp
    cases e with
    | tecla d =>
      simp only [ejecutar_eventos, paso] at h
      apply ih _ _ h
      rw [(cambiar_direccion_campos d j0).1]
      exact hp
    | tick cc co =>
      simp only [ejecutar_eventos, paso] at h
      cases htk : tick cc co j0 with
      | none => rw [htk] at h; cases h
      | some j1 =>
        rw [htk] at h
        exact ih _ _ h (tick_serpiente_pos cc co j0 j1 htk hp)

/-! ## Indexing after a move -/

theorem cons_dropLast_getElem (l : List Pos) (a : Pos) (i : Nat)
    (h1 : 1 ≤ i) (h2 : i < l.length) : (a :: l.dropLast)[i]? = l[i - 1]? := by
  obtain ⟨k, rfl⟩ : ∃ k, i = k + 1 := ⟨i - 1, by omega⟩
  simp only [List.getElem?_cons_succ, Nat.add_sub_cancel]
  rw [List.dropLast_eq_take, List.getElem?_take, if_pos (by omega)]

/-! ## C1: speed restoration at effect expiry -/

/-- C1, counterexample to the claim as stated: in the level-2 state `jC1`
with a `lento` effect at one remaining tick, decaying the effect clears
it but sets the speed to 150, while the level-base value
`VELOCIDAD_BASE + (nivel - 1) * 20` at level 2 is 170 — the expiry does
not restore the level-base speed for every level. -/
theorem c1_contraejemplo :
    jC1.nivel = 2 ∧ jC1.efecto_temporal = some ⟨.lento, 1⟩ ∧
    (actualizar_efectos_temporales jC1).efecto_temporal = none ∧
    (actualizar_efectos_temporales jC1).velocidad_actual = 150 ∧
    VELOCIDAD_BASE + ((2 : Int) - 1) * 20 = 170 ∧ (150 : Int) ≠ 170 :=
  ⟨rfl, rfl, rfl, rfl, by decide, by decide⟩

/-- C1 (amended): when an active effect's remaining-tick counter reaches
zero during `actualizar_efectos_temporales`, the effect is cleared and
the speed is set to the constant `VELOCIDAD_BASE` — the global base,
which coincides with the level-base value only at level 1. -/
theorem c1_expiracion (j : JuegoSnake) (e : EfectoTemporal)
    (h1 : j.efecto_temporal = some e) (h2 : e.duracion - 1 ≤ 0) :
    actualizar_efectos_temporales j =
      { j with velocidad_actual := VELOCIDAD_BASE, efecto_temporal := none } := by
  unfold actualizar_efectos_temporales
  rw [h1]
  simp [h2]

/-- C1, witness: the amended expiry law evaluated on `jC1`. -/
theorem c1_testigo :
    actualizar_efectos_temporales jC1 =
      { jC1 with velocidad_actual := VELOCIDAD_BASE, efecto_temporal := none } :=
  c1_expiracion jC1 ⟨.lento, 1⟩ rfl (by decide)

/-! ## C2: what a death-reset preserves -/

/-- C2, counterexample to the claim as stated: resetting the level-3
state `jC2`, which carries the six obstacles of a continuous session,
regenerates the obstacle list from scratch — the result has
`(3 - 1) * 2 = 4` freshly drawn obstacles, not the six previous ones, so
the obstacle set is not preserved. -/
theorem c2_contraejemplo :
    (game_over [(240, 240, .fit)]
        [(-240, -240), (-160, -240), (-80, -240), (0, -240)] jC2).map
        (fun j => j.obstaculos.length) = some 4 ∧
    jC2.obstaculos.length = 6 ∧ (4 : Nat) ≠ 6 :=
  ⟨rfl, rfl, by decide⟩

/-- C2 (amended): a death-reset (`game_over`, which runs
`inicializar_juego`) preserves score and level, increments the run count
by exactly 1, resets the snake to a single head segment at the origin,
the direction to `derecha` and the temporary effect to none — but the
obstacle list is cleared and regenerated as a fresh batch of
`(nivel - 1) * 2` randomly drawn obstacles rather than preserved. -/
theorem c2_reinicio (cc : List (Int × Int × TipoComida)) (co : List (Int × Int))
    (j j' : JuegoSnake) (h : game_over cc co j = some j') :
    j'.puntaje = j.puntaje ∧ j'.nivel = j.nivel ∧
    j'.juegos_jugados = j.juegos_jugados + 1 ∧ j'.serpiente = [⟨0, 0⟩] ∧
    j'.direccion = .derecha ∧ j'.efecto_temporal = none ∧
    j'.obstaculos.length = (j.nivel - 1) * 2 :=
  (game_over_eq cc co j j' h).imp id
    (fun h' => h'.imp id (fun h' => h'.imp id (fun h' => h'.imp id
      (fun h' => h'.imp id (fun h' => h'.imp id And.left)))))

/-- C2, witness: the amended reset law evaluated on `jC2` with concrete
random draws. -/
theorem c2_testigo :
    jC2res.puntaje = 120 ∧ jC2res.nivel = 3 ∧ jC2res.juegos_jugados = 1 ∧
    jC2res.serpiente = [⟨0, 0⟩] ∧ jC2res.efecto_temporal = none ∧
    jC2res.obstaculos.length = 4 := by
  obtain ⟨h1, h2, h3, h4, h5, h6, h7⟩ :=
    c2_reinicio [(240, 240, .fit)]
      [(-240, -240), (-160, -240), (-80, -240), (0, -240)] jC2 jC2res (by rfl)
  exact ⟨h1.trans rfl, h2.trans rfl, h3.trans rfl, h4, h6, h7.trans rfl⟩

/-! ## C3: speed bounds and the no-effect speed -/

/-- C3, counterexample to the claim as stated: the state reached from a
fresh game by the concrete play `trazaC3a` (ten `real` consumptions that
raise the level to 2, then four food-free ticks during which the last
effect expires) has no active effect, and the immediately following
food-free tick (`trazaC3`) applies none — yet the speed is 150, not the
level-base value `VELOCIDAD_BASE + (2 - 1) * 20 = 170`. -/
theorem c3_contraejemplo :
    ((juego_nuevo cc0).bind (ejecutar_eventos trazaC3a)).map
        (fun j => (j.nivel, j.velocidad_actual, j.efecto_temporal, j.puntaje)) =
      some (2, 150, none, 50) ∧
    ((juego_nuevo cc0).bind (ejecutar_eventos trazaC3)).map
        (fun j => (j.nivel, j.velocidad_actual, j.efecto_temporal, j.puntaje)) =
      some (2, 150, none, 50) ∧
    (150 : Int) ≠ VELOCIDAD_BASE + ((2 : Int) - 1) * 20 :=
  ⟨rfl, rfl, by decide⟩

/-- C3 (amended): applying any food effect to a state whose speed lies in
`[50, 300]` yields a speed in `[50, 300]` (the HighFat and Royal clamps,
Fit and Poisonous leaving the speed untouched); but when a temporary
effect expires, the speed is reset to the constant `VELOCIDAD_BASE`, so
with no effect active the speed need not equal the level-base value. -/
theorem c3_acotacion :
    (∀ (t : TipoComida) (j : JuegoSnake),
      50 ≤ j.velocidad_actual → j.velocidad_actual ≤ 300 →
      50 ≤ (aplicar_efecto t j).velocidad_actual ∧
        (aplicar_efecto t j).velocidad_actual ≤ 300) ∧
    (∀ (j : JuegoSnake) (e : EfectoTemporal),
      j.efecto_temporal = some e → e.duracion - 1 ≤ 0 →
      (actualizar_efectos_temporales j).velocidad_actual = VELOCIDAD_BASE) := by
  constructor
  · intro t j h1 h2
    cases t <;> simp [aplicar_efecto, mostrar_mensaje, crecer_serpiente]
    · split <;> simp <;> omega
    · omega
    · omega
    · omega
  · intro j e h1 h2
    unfold actualizar_efectos_temporales
    rw [h1]
    simp [h2]

/-- C3, witness: the amended bounds evaluated on `jC1` (speed 120) for a
HighFat consumption, and the expiry reset on `jC1`. -/
theorem c3_testigo :
    (50 ≤ (aplicar_efecto TipoComida.alto_grasas jC1).velocidad_actual ∧
      (aplicar_efecto TipoComida.alto_grasas jC1).velocidad_actual ≤ 300) ∧
    (actualizar_efectos_temporales jC1).velocidad_actual = VELOCIDAD_BASE :=
  ⟨c3_acotacion.1 .alto_grasas jC1 (by decide) (by decide),
   c3_acotacion.2 jC1 ⟨.lento, 1⟩ rfl (by decide)⟩

/-! ## C4: obstacle count over a session -/

/-- C4, counterexample to the claim as stated: a fresh game starts at
level 1 with 0 obstacles; after the death-free play `traza_subida`,
exactly one level-up has occurred (level 1 → 2) and the obstacle count is
2, whereas the claimed formula `2 * (0 + 1 + ... + (N - 1))` gives
`2 * 0 = 0` for `N = 1` level-ups. -/
theorem c4_contraejemplo :
    (juego_nuevo cc0).map (fun j => (j.nivel, j.obstaculos.length)) = some (1, 0) ∧
    (juego_nuevo cc0).map (fun j => sin_muertes traza_subida j) = some true ∧
    ((juego_nuevo cc0).bind (ejecutar_eventos traza_subida)).map
        (fun j => (j.nivel, j.obstaculos.length)) = some (2, 2) ∧
    2 * ∑ i in Finset.range 1, i = 0 ∧ (2 : Nat) ≠ 0 :=
  ⟨rfl, rfl, rfl, rfl, by decide⟩

/-- C4 (amended): in a continuous session with no death-reset, the
obstacle count always equals `(nivel - 1) * nivel`, i.e.
`2 * (0 + 1 + ... + (nivel - 1))`; since each level-up raises the level
by exactly one starting from level 1, after `N` level-ups this is
`2 * (1 + 2 + ... + N) = N * (N + 1)`, not `2 * (0 + ... + (N - 1))`. -/
theorem c4_obstaculos (cc : List (Int × Int × TipoComida)) (evs : List Evento)
    (j0 j : JuegoSnake) (h0 : juego_nuevo cc = some j0)
    (hsm : sin_muertes evs j0 = true) (h : ejecutar_eventos evs j0 = some j) :
    j.obstaculos.length = (j.nivel - 1) * j.nivel ∧
    j.obstaculos.length = 2 * ∑ i in Finset.range j.nivel, i ∧
    1 ≤ j.nivel := by
  have hinv0 : InvarianteObstaculos j0 := by
    obtain ⟨c, rfl, -, -, -⟩ := generar_nueva_comida_eq _ _ _ h0
    refine ⟨rfl, ?_, ?_⟩
    · show estado_inicial.puntaje / PUNTOS_POR_NIVEL + 1 ≤ estado_inicial.nivel
      decide
    · show (1 : Nat) ≤ estado_inicial.nivel
      decide
  obtain ⟨i1, i2, i3⟩ := ejecutar_preserva evs j0 j hsm h hinv0
  refine ⟨i1, ?_, i3⟩
  rw [i1, Nat.mul_comm]
  have hg := Finset.sum_range_id_mul_two j.nivel
  omega

/-- C4, witness: the amended count law evaluated on a fresh game with no
events. -/
theorem c4_testigo :
    juego_nuevo cc0 = some juego_inicial_cc0 ∧
    juego_inicial_cc0.obstaculos.length =
      (juego_inicial_cc0.nivel - 1) * juego_inicial_cc0.nivel :=
  ⟨by rfl, (c4_obstaculos cc0 [] juego_inicial_cc0 juego_inicial_cc0 (by rfl) rfl rfl).1⟩

/-! ## C5: the level-up rule -/

/-- C5: `verificar_subida_nivel` computes
`nuevo_nivel = puntaje / 50 + 1`; exactly when it exceeds the current
level, the level is raised to it, the speed is recomputed as
`VELOCIDAD_BASE + (nivel - 1) * 20`, a batch of `(nivel - 1) * 2`
obstacles is generated and a level-up message is emitted — and otherwise
the state is unchanged.  In particular, from score 49 at level 1, eating
a Fit food yields score 50 and a transition to level 2 with speed
`VELOCIDAD_BASE + 20` and two new obstacles. -/
theorem c5_subida :
    (∀ (co : List (Int × Int)) (j j' : JuegoSnake),
      verificar_subida_nivel co j = some j' →
        (j.nivel < j.puntaje / PUNTOS_POR_NIVEL + 1 →
          j'.nivel = j.puntaje / PUNTOS_POR_NIVEL + 1 ∧
          j'.velocidad_actual = VELOCIDAD_BASE + ((j'.nivel : Int) - 1) * 20 ∧
          j'.obstaculos.length = j.obstaculos.length + (j'.nivel - 1) * 2 ∧
          j'.mensaje_actual =
            "¡NIVEL " ++ toString (j.puntaje / PUNTOS_POR_NIVEL + 1) ++
              "! Más velocidad y obstáculos" ∧
          j'.tiempo_mensaje = 60) ∧
        (¬ j.nivel < j.puntaje / PUNTOS_POR_NIVEL + 1 → j' = j)) ∧
    ((aplicar_efecto .fit j49).puntaje = 50 ∧
      verificar_subida_nivel [(-280, -280), (-200, -280)]
          (aplicar_efecto .fit j49) = some j49res ∧
      j49.nivel = 1 ∧ j49res.nivel = 2 ∧
      j49res.velocidad_actual = VELOCIDAD_BASE + 20 ∧
      j49res.obstaculos.length = 2) := by
  constructor
  · intro co j j' h
    constructor
    · intro hlt
      obtain ⟨e1, e2, e3, e4, e5, e6, e7, e8, e9, e10, e11⟩ :=
        verificar_subida_nivel_eq co j j' h hlt
      exact ⟨e1, e2, e3, e10, e11⟩
    · intro hlt
      rw [verificar_subida_nivel_no co j hlt] at h
      injection h with h
      exact h.symm
  · exact ⟨rfl, by rfl, rfl, rfl, by decide, rfl⟩

/-- C5, witness: the general level-up law applied to the concrete score-49
scenario state. -/
theorem c5_testigo :
    j49res.nivel = (aplicar_efecto .fit j49).puntaje / PUNTOS_POR_NIVEL + 1 ∧
    j49res.tiempo_mensaje = 60 := by
  obtain ⟨h1, -, -, -, h5⟩ :=
    (c5_subida.1 [(-280, -280), (-200, -280)] (aplicar_efecto .fit j49) j49res
      (by rfl)).1 (by decide)
  exact ⟨h1, h5⟩

/-! ## C6: one advance of the snake -/

/-- C6: for a nonempty snake, one `mover_serpiente` keeps the length,
replaces the head by its one-cell step in the current direction, and
moves every trailing segment `i ≥ 1` to the position segment `i - 1`
held immediately before the advance. -/
theorem c6_mover (j : JuegoSnake) (h : j.serpiente ≠ []) :
    (mover_serpiente j).serpiente.length = j.serpiente.length ∧
    (mover_serpiente j).serpiente[0]? =
      (j.serpiente[0]?).map (siguiente_cabeza j.direccion) ∧
    ∀ i : Nat, 1 ≤ i → i < j.serpiente.length →
      (mover_serpiente j).serpiente[i]? = j.serpiente[i - 1]? := by
  cases hs : j.serpiente with
  | nil => exact absurd hs h
  | cons cabeza cuerpo =>
    have hmv : mover_serpiente j =
        { j with serpiente :=
            siguiente_cabeza j.direccion cabeza :: (cabeza :: cuerpo).dropLast } := by
      unfold mover_serpiente
      rw [hs]
    rw [hmv]
    refine ⟨?_, ?_, ?_⟩
    · simp [List.length_dropLast]
    · simp
    · intro i h1 h2
      exact cons_dropLast_getElem (cabeza :: cuerpo) _ i h1 h2

/-- C6, witness: the advance law evaluated on the three-segment snake
`jC6`. -/
theorem c6_testigo :
    (mover_serpiente jC6).serpiente.length = 3 ∧
    (mover_serpiente jC6).serpiente[1]? = jC6.serpiente[0]? := by
  obtain ⟨h1, -, h3⟩ := c6_mover jC6 (by decide)
  exact ⟨h1.trans rfl, h3 1 le_rfl (by decide)⟩

/-! ## C7: snake length across operations -/

/-- C7, counterexample to the claim as stated: from the two-segment state
`jC7`, two ticks (a move to the wall, then the automatic death-reset)
shrink the snake from 2 segments to 1 even though no Poisonous food is
consumed (the score stays 7 throughout and the only live food is a
far-away Fit) — the segment count can decrease by the death-reset, not
only by Poisonous food. -/
theorem c7_contraejemplo :
    (ejecutar_eventos [.tick [] [], .tick [(0, 100, .fit)] []] jC7).map
        (fun j => (j.serpiente.length, j.puntaje, j.juegos_jugados)) =
      some (1, 7, 1) ∧
    jC7.serpiente.length = 2 ∧ (1 : Nat) < 2 :=
  ⟨rfl, rfl, by decide⟩

/-- C7 (amended): `crecer_serpiente` always adds exactly one segment;
`aplicar_efecto` removes exactly one tail segment for Poisonous food when
the length exceeds 1, leaves the snake unchanged for Poisonous at length
≤ 1, and adds exactly one segment for every other food; and across every
event sequence — death-resets included, which recreate the snake as a
single head segment — the length never falls below 1. -/
theorem c7_longitud :
    (∀ j : JuegoSnake,
      (crecer_serpiente j).serpiente.length = j.serpiente.length + 1) ∧
    (∀ j : JuegoSnake, 1 < j.serpiente.length →
      (aplicar_efecto .venenosa j).serpiente.length = j.serpiente.length - 1) ∧
    (∀ j : JuegoSnake, ¬ 1 < j.serpiente.length →
      (aplicar_efecto .venenosa j).serpiente = j.serpiente) ∧
    (∀ (t : TipoComida) (j : JuegoSnake), t ≠ .venenosa →
      (aplicar_efecto t j).serpiente.length = j.serpiente.length + 1) ∧
    (∀ (evs : List Evento) (j0 j : JuegoSnake),
      ejecutar_eventos evs j0 = some j → 1 ≤ j0.serpiente.length →
      1 ≤ j.serpiente.length) := by
  refine ⟨?_, ?_, ?_, ?_, ejecutar_serpiente_pos⟩
  · intro j
    simp [crecer_serpiente]
  · intro j h
    simp [aplicar_efecto, mostrar_mensaje, if_pos h, List.length_dropLast]
  · intro j h
    simp [aplicar_efecto, mostrar_mensaje, if_neg h]
  · intro t j ht
    cases t with
    | venenosa => exact absurd rfl ht
    | fit => simp [aplicar_efecto, mostrar_mensaje, crecer_serpiente]
    | alto_grasas => simp [aplicar_efecto, mostrar_mensaje, crecer_serpiente]
    | real => simp [aplicar_efecto, mostrar_mensaje, crecer_serpiente]

/-- C7, witness: the Poisonous case of the amended length law evaluated
on `jC7`. -/
theorem c7_testigo :
    (aplicar_efecto TipoComida.venenosa jC7).serpiente.length = 1 :=
  (c7_longitud.2.1 jC7 (by decide)).trans rfl

/-! ## C8: validity of spawned food -/

/-- C8: whatever obstacles and snake segments are present, every food the
spawn procedure returns sits on a grid-aligned position (both coordinates
multiples of `TAMAÑO_CELDA`) outside the 20×20 clearance box of every
obstacle and every snake segment. -/
theorem c8_comida_valida (cands : List (Int × Int × TipoComida))
    (j j' : JuegoSnake) (h : generar_nueva_comida cands j = some j')
    (c : Comida) (hc : j'.comida = some c) :
    c.pos.x % TAMANO_CELDA = 0 ∧ c.pos.y % TAMANO_CELDA = 0 ∧
    (∀ o ∈ j.obstaculos,
      ¬ ((c.pos.x - o.x).natAbs < 20 ∧ (c.pos.y - o.y).natAbs < 20)) ∧
    (∀ s ∈ j.serpiente,
      ¬ ((c.pos.x - s.x).natAbs < 20 ∧ (c.pos.y - s.y).natAbs < 20)) := by
  obtain ⟨c', rfl, hconf, hx, hy⟩ := generar_nueva_comida_eq _ _ _ h
  have hcc : c' = c := by
    have : some c' = some c := hc
    injection this
  subst hcc
  simp only [comida_en_conflicto, Bool.or_eq_false_iff, List.any_eq_false] at hconf
  refine ⟨hx, hy, ?_, ?_⟩
  · intro o ho
    simpa using hconf.1 o ho
  · intro s hsn
    simpa using hconf.2 s hsn

/-- C8, witness: the spawn-validity law evaluated on `jC8`, where the
first random draw collides with the obstacle and the second is
returned. -/
theorem c8_testigo :
    ((240 : Int)) % TAMANO_CELDA = 0 ∧ ((-240 : Int)) % TAMANO_CELDA = 0 := by
  obtain ⟨hx, hy, -, -⟩ :=
    c8_comida_valida [(100, 100, .fit), (240, -240, .real)] jC8
      { jC8 with comida := some ⟨.real, ⟨240, -240⟩⟩ } (by rfl)
      ⟨.real, ⟨240, -240⟩⟩ rfl
  exact ⟨hx, hy⟩

/-! ## C9: the direction-change rule -/

/-- C9: a direction input equal to the exact opposite of the currently
stored direction leaves the state unchanged; any other input — including
the current direction itself — overwrites the stored direction.  With
stored direction `derecha`, the input `izquierda` is its opposite, so it
is rejected. -/
theorem c9_cambiar (d : Direccion) (j : JuegoSnake) :
    (d = direcciones_opuestas j.direccion → cambiar_direccion d j = j) ∧
    (d ≠ direcciones_opuestas j.direccion →
      cambiar_direccion d j = { j with direccion := d }) := by
  constructor
  · intro h
    unfold cambiar_direccion
    simp [h]
  · intro h
    unfold cambiar_direccion
    simp [h]

/-- C9, witness: with stored direction `derecha` (the fresh-game state),
the opposite input `izquierda` is rejected and the direction stays
`derecha`. -/
theorem c9_testigo :
    cambiar_direccion .izquierda estado_inicial = estado_inicial ∧
    estado_inicial.direccion = .derecha :=
  ⟨(c9_cambiar .izquierda estado_inicial).1 rfl, rfl⟩

/-! ## C10: reversal through two queued inputs -/

/-- C10: the reversal guard only checks the stored direction, so from
`jC10` (snake `[(20,0), (0,0)]` heading `derecha`) one advance puts the
head at `(40, 0)`; the two inputs `arriba` then `izquierda` arriving
before the next advance are both accepted (each differs from the
opposite of the direction stored at that moment), leaving stored
direction `izquierda` — the exact opposite of the `derecha` used by the
previous advance — and the next advance moves the head back to `(20, 0)`,
the cell it had just vacated. -/
theorem c10_reversa :
    direcciones_opuestas jC10.direccion = .izquierda ∧
    (ejecutar_eventos [.tick [] []] jC10).map (fun j => j.serpiente) =
      some [⟨40, 0⟩, ⟨20, 0⟩] ∧
    (ejecutar_eventos [.tick [] [], .tecla .arriba] jC10).map
      (fun j => j.direccion) = some .arriba ∧
    (ejecutar_eventos [.tick [] [], .tecla .arriba, .tecla .izquierda] jC10).map
      (fun j => j.direccion) = some .izquierda ∧
    (ejecutar_eventos [.tick [] [], .tecla .arriba, .tecla .izquierda,
        .tick [] []] jC10).map (fun j => j.serpiente) =
      some [⟨20, 0⟩, ⟨40, 0⟩] ∧
    jC10.serpiente[0]? = some ⟨20, 0⟩ :=
  ⟨rfl, rfl, rfl, rfl, rfl, rfl⟩
